import Mathlib

/-!
Verification of the flight-telemetry ingestion engine
(`littlenavmap_integration.py`) against its specification.

Shallow embedding conventions:
* JSON numbers are modelled as exact rationals (`ℚ`); a key that may be
  absent from a raw sample is an `Option` field.
* A Python dict that may be empty (`{}` is falsy) is modelled as an
  `Option` of the corresponding structure, `none` standing for `{}`.
* Milestone-registry keys `"FL{n}"` / `"WP_{name}"` are modelled by the
  inductive `MKey`; the rendering of keys and announcement strings is
  injective on the keys the code ever builds, so dictionary membership on
  the strings coincides with membership on `MKey`.
* Wall-clock timestamps attached to events are not modelled.
-/

namespace LNM

/-- m/s → knots factor `1.943844` used throughout the source. -/
def msToKt : ℚ := 1943844 / 1000000

/-- m/s → ft/min factor `196.85`. -/
def msToFpm : ℚ := 19685 / 100

/-- km → nm factor `0.539957`. -/
def kmToNm : ℚ := 539957 / 1000000

/-- A raw sample returned by the external source: the keys the engine
reads, each optional (`data.get`). `position_lat`/`position_lon` model
`data.get('position', \x7b\x7d).get('lat'/'lon')`. -/
structure RawSample where
  indicated_altitude : Option ℚ := none
  altitude_above_ground : Option ℚ := none
  ground_altitude : Option ℚ := none
  ground_speed : Option ℚ := none
  true_airspeed : Option ℚ := none
  indicated_speed : Option ℚ := none
  heading : Option ℚ := none
  vertical_speed : Option ℚ := none
  position_lat : Option ℚ := none
  position_lon : Option ℚ := none
  wind_speed : Option ℚ := none
  wind_direction : Option ℚ := none
  on_ground : Option Bool := none
  phase : Option String := none
  next_wp_name : Option String := none
  destination_distance : Option ℚ := none
  fuel_remaining : Option ℚ := none
  ete_hours : Option ℚ := none
deriving DecidableEq

/-- The normalized snapshot built by `_update_flight_data_cache`
(the value of `self._flight_data_cache` after one update). -/
structure FlightCache where
  altitude_ft : ℚ
  altitude_agl_ft : ℚ
  ground_altitude_ft : ℚ
  speed_kt : ℚ
  true_airspeed_kt : ℚ
  indicated_airspeed_kt : ℚ
  heading_deg : ℚ
  vertical_speed_fpm : ℚ
  latitude : ℚ
  longitude : ℚ
  wind_speed_kt : ℚ
  wind_direction_deg : ℚ
  on_ground : Bool
  phase : String
  next_waypoint : String
  distance_to_dest_nm : ℚ
  fuel_remaining_lbs : ℚ
  ete_minutes : ℚ
  raw_data : RawSample
deriving DecidableEq

/-- Models `self._flight_data_cache.get('altitude_agl_ft', 0)` — the cache starts
out as the empty dict (`none`). -/
def cacheAgl : Option FlightCache → ℚ
  | some c => c.altitude_agl_ft
  | none => 0

/-- Models `flight_data.get('speed_kt', 0)`. -/
def cacheSpeed : Option FlightCache → ℚ
  | some c => c.speed_kt
  | none => 0

/-- Models `flight_data.get('vertical_speed_fpm', 0)`. -/
def cacheVs : Option FlightCache → ℚ
  | some c => c.vertical_speed_fpm
  | none => 0

/-- Models `flight_data.get('on_ground', False)`. -/
def cacheOnGround : Option FlightCache → Bool
  | some c => c.on_ground
  | none => false

/-- Source `_safe_float`: `float(value) if value is not None else 0.0`; the
missing-key default `0` of the surrounding `data.get(k, 0)` calls yields
the same `0`. -/
def _safe_float (value : Option ℚ) : ℚ := value.getD 0

/-- The ordered threshold cascade of `_detect_flight_phase`
(source lines 170–187), verbatim, as a function of the four metrics it
reads from the dict it is handed. -/
def phaseRules (altitude_agl ground_speed vertical_speed : ℚ)
    (on_ground : Bool) : String :=
  if on_ground = true ∧ ground_speed < 5 then "parked"
  else if on_ground = true ∧ ground_speed ≥ 5 then "taxiing"
  else if altitude_agl < 50 ∧ ground_speed > 40 then "takeoff"
  else if altitude_agl < 1000 ∧ vertical_speed > 300 then "climbing"
  else if altitude_agl > 3000 ∧ |vertical_speed| < 200 then "cruise"
  else if vertical_speed < -300 then "descending"
  else if altitude_agl < 300 ∧ vertical_speed < 0 then "approach"
  else if on_ground = true ∧ ground_speed > 5 then "landing"
  else "unknown"

/-- Source `_detect_flight_phase(self, flight_data)`: reads the four metrics from
`flight_data` (with dict defaults), returns `self._last_data['phase'].lower()`
when the last raw sample carries a `phase` key, otherwise applies the
threshold cascade.  `last_data = none` models `self._last_data == \x7b\x7d`. -/
def _detect_flight_phase (last_data : Option RawSample)
    (flight_data : Option FlightCache) : String :=
  match last_data.bind RawSample.phase with
  | some p => p.toLower
  | none =>
      phaseRules (cacheAgl flight_data) (cacheSpeed flight_data)
        (cacheVs flight_data) (cacheOnGround flight_data)

/-- Source `_update_flight_data_cache(self, data)`: builds the new cache dict from
the raw sample `data`.  At every call site `self._last_data` has already
been set to `data`; `prev` is `self._flight_data_cache` as it stands when
the dict literal is evaluated, i.e. the PREVIOUS cycle's cache — both the
`on_ground` inference and the `phase` entry read it. -/
def _update_flight_data_cache (last_data : Option RawSample)
    (prev : Option FlightCache) (data : RawSample) : FlightCache :=
  { altitude_ft := _safe_float data.indicated_altitude
  , altitude_agl_ft := _safe_float data.altitude_above_ground
  , ground_altitude_ft := _safe_float data.ground_altitude
  , speed_kt := _safe_float data.ground_speed * msToKt
  , true_airspeed_kt := _safe_float data.true_airspeed * msToKt
  , indicated_airspeed_kt := _safe_float data.indicated_speed * msToKt
  , heading_deg := _safe_float data.heading
  , vertical_speed_fpm := _safe_float data.vertical_speed * msToFpm
  , latitude := _safe_float data.position_lat
  , longitude := _safe_float data.position_lon
  , wind_speed_kt := _safe_float data.wind_speed * msToKt
  , wind_direction_deg := _safe_float data.wind_direction
  , on_ground := data.on_ground.getD false || decide (cacheAgl prev < 5)
  , phase := _detect_flight_phase last_data prev
  , next_waypoint := data.next_wp_name.getD ""
  , distance_to_dest_nm := _safe_float data.destination_distance * kmToNm
  , fuel_remaining_lbs := _safe_float data.fuel_remaining
  , ete_minutes := _safe_float data.ete_hours * 60
  , raw_data := data }

/-- A milestone-registry key: `"FL\x7bn\x7d"` or `"WP_\x7bname\x7d"`.
The string renderings of distinct keys are distinct, and a waypoint key
never satisfies `key.startswith('FL')`, so the dict over key strings in
the source is faithfully a set of `MKey`s (values are only ever `True`). -/
inductive MKey where
  | FL (n : ℤ)
  | WP (w : String)
deriving DecidableEq

/-- Python `int()` applied to a rational: truncation toward zero
(`num.tdiv den` truncates toward zero since `den > 0`). -/
def pyInt (q : ℚ) : ℤ := q.num.tdiv q.den

/-- Source `int(altitude_ft / 1000) * 10` — the current flight level used both
to build the `FL` key and to clear stale keys. -/
def flightLevelOf (altitude_ft : ℚ) : ℤ := pyInt (altitude_ft / 1000) * 10

/-- The announcement string the source builds for each milestone key. -/
def announceText : MKey → String
  | MKey.FL n => "Reached flight level " ++ toString n
  | MKey.WP w => "Approaching waypoint " ++ w

/-- Source `_check_milestones(self, flight_data)` with announcements kept as keys:
returns (milestones fired this pass, updated registry).  Steps, in source
order: fire the current `FL` key when `altitude_ft >= 10000` and it is not
yet in the registry; then delete every `FL` key whose level exceeds the
current level; then fire the `WP` key for a non-empty `next_waypoint` not
yet in the registry. -/
def checkMilestonesCore (fd : FlightCache) (reg : List MKey) :
    List MKey × List MKey :=
  let altitude_ft := fd.altitude_ft
  let s1 :=
    if altitude_ft ≥ 10000 then
      let fl := flightLevelOf altitude_ft
      if MKey.FL fl ∈ reg then (([] : List MKey), reg)
      else ([MKey.FL fl], reg ++ [MKey.FL fl])
    else (([] : List MKey), reg)
  let current_fl := flightLevelOf altitude_ft
  let reg2 := s1.2.filter fun k =>
    match k with
    | MKey.FL n => decide (n ≤ current_fl)
    | MKey.WP _ => true
  let waypoint := fd.next_waypoint
  if waypoint ≠ "" ∧ MKey.WP waypoint ∉ reg2 then
    (s1.1 ++ [MKey.WP waypoint], reg2 ++ [MKey.WP waypoint])
  else (s1.1, reg2)

/-- Function `_check_milestones` as in the source: the fired milestones rendered to
their announcement strings, plus the updated registry. -/
def _check_milestones (fd : FlightCache) (reg : List MKey) :
    List String × List MKey :=
  ((checkMilestonesCore fd reg).1.map announceText,
   (checkMilestonesCore fd reg).2)

/-- A run of milestone-detection passes: fold `_check_milestones` over a
sequence of snapshots, accumulating every milestone fired along the way. -/
def milestoneRun (fds : List FlightCache) (reg : List MKey) :
    List MKey × List MKey :=
  match fds with
  | [] => ([], reg)
  | fd :: rest =>
      let r := checkMilestonesCore fd reg
      let rr := milestoneRun rest r.2
      (r.1 ++ rr.1, rr.2)

/-- Outcome of one `_fetch_from_endpoint` attempt: `ok payload` when the
GET + `raise_for_status` + JSON decode all succeed (`payload = none` for an
empty body), `err` when any of them raises. -/
inductive EndpointResult where
  | ok (payload : Option RawSample)
  | err
deriving DecidableEq

/-- Source `_fetch_data_with_fallback`: walk the endpoint list in order; a raised
fetch is caught and skipped (`continue`), a falsy payload is skipped
(`if data:`), the first truthy payload is returned, and an exhausted list
yields the empty dict rather than an error. -/
def _fetch_data_with_fallback : List EndpointResult → Option RawSample
  | [] => none
  | EndpointResult.ok (some d) :: _ => some d
  | EndpointResult.ok none :: rest => _fetch_data_with_fallback rest
  | EndpointResult.err :: rest => _fetch_data_with_fallback rest

/-- A registered callback.  Python compares callbacks by object identity
(`in` / `list.remove`); we model identities as naturals and keep each
callback's behaviour in a separate environment of type
`Listener → Event → Except String Unit`. -/
structure Listener where
  id : ℕ
deriving DecidableEq

/-- An event delivered to listeners: the raw-update payload, a
`phase_change` dict or a `milestone` dict (timestamps not modelled). -/
inductive Event where
  | update (d : RawSample)
  | phase_change (old : Option String) (new : String) (fd : FlightCache)
  | milestone (text : String) (fd : FlightCache)
deriving DecidableEq

/-- Source `_notify_listeners`: call every registered listener in order with the
event; a listener's exception is caught and logged, so the loop continues
with the remaining listeners and no exception escapes.  The result is the
invocation trace: each listener paired with the caught outcome of its
call. -/
def _notify_listeners (beh : Listener → Event → Except String Unit) :
    List Listener → Event → List (Listener × Except String Unit)
  | [], _ => []
  | l :: rest, e => (l, beh l e) :: _notify_listeners beh rest e

/-- Source `add_listener`: `self._listeners.append(callback)`. -/
def add_listener (listeners : List Listener) (callback : Listener) :
    List Listener :=
  listeners ++ [callback]

/-- Source `remove_listener`: `if callback in self._listeners:
self._listeners.remove(callback)` — removes the first occurrence, no-op
when absent. -/
def remove_listener (listeners : List Listener) (callback : Listener) :
    List Listener :=
  if callback ∈ listeners then listeners.erase callback else listeners

/-- The engine's mutable fields touched by the poll loop. -/
structure EngineState where
  last_data : Option RawSample
  flight_data_cache : Option FlightCache
  last_phase : Option String
  last_milestones : List MKey
deriving DecidableEq

/-- State at engine start: `\x7b\x7d`, `\x7b\x7d`, `None`, `\x7b\x7d`. -/
def initialEngineState : EngineState :=
  { last_data := none, flight_data_cache := none, last_phase := none
  , last_milestones := [] }

/-- Loop state of `_poll_loop`: the engine fields plus the local
`consecutive_errors` counter. -/
structure PollState where
  engine : EngineState
  consecutive_errors : ℕ
deriving DecidableEq

/-- The `_poll_loop` entry state: fresh engine, `consecutive_errors = 0`. -/
def initialPollState : PollState :=
  { engine := initialEngineState, consecutive_errors := 0 }

/-- Source `max_errors = 5`. -/
def max_errors : ℕ := 5

/-- What one loop iteration did on the outside: the events delivered (each
with its invocation trace) and the seconds slept before the next cycle. -/
structure CycleEffect where
  deliveries : List (Event × List (Listener × Except String Unit))
  sleep_seconds : ℚ

/-- One iteration of the `while True` body, abstracted over its outcome:
either the fetch stage completed with `data` (possibly the empty dict —
fetch failures never raise out of `_fetch_data_with_fallback`), or some
exception escaped the body and was caught by the `except Exception`
handler. -/
inductive CycleOutcome where
  | fetched (data : Option RawSample)
  | raised
deriving DecidableEq

/-- Source `_check_milestones_and_phases` inside one accepted cycle: phase-change
detection against `_last_phase`, then milestone detection.  Returns the
events to deliver, the new `_last_phase` and the new registry. -/
def _check_milestones_and_phases (cache : FlightCache)
    (last_phase : Option String) (reg : List MKey) :
    List Event × Option String × List MKey :=
  let current_phase := cache.phase
  let phaseEvents :=
    if some current_phase ≠ last_phase then
      [Event.phase_change last_phase current_phase cache]
    else []
  let last_phase1 :=
    if some current_phase ≠ last_phase then some current_phase else last_phase
  let ms := _check_milestones cache reg
  (phaseEvents ++ ms.1.map fun t => Event.milestone t cache, last_phase1, ms.2)

/-- The body of one `_poll_loop` iteration, given the cycle's outcome.
On fresh data: store it, rebuild the cache, notify listeners with the raw
update, run phase/milestone detection (delivering those events), reset the
error counter, sleep the poll interval.  On the empty dict or on data equal
to the previous sample: do nothing and sleep the poll interval.  On a
raised exception: bump the counter; at `max_errors` sleep 30 s and reset
it, otherwise sleep 5 s. -/
def _poll_step (poll_interval : ℚ)
    (beh : Listener → Event → Except String Unit)
    (listeners : List Listener) (st : PollState) (o : CycleOutcome) :
    PollState × CycleEffect :=
  match o with
  | CycleOutcome.raised =>
      let c := st.consecutive_errors + 1
      if c ≥ max_errors then
        ({ st with consecutive_errors := 0 }, { deliveries := [], sleep_seconds := 30 })
      else
        ({ st with consecutive_errors := c }, { deliveries := [], sleep_seconds := 5 })
  | CycleOutcome.fetched none =>
      (st, { deliveries := [], sleep_seconds := poll_interval })
  | CycleOutcome.fetched (some d) =>
      if some d ≠ st.engine.last_data then
        let last_data1 : Option RawSample := some d
        let cache1 :=
          _update_flight_data_cache last_data1 st.engine.flight_data_cache d
        let updDelivery := (Event.update d, _notify_listeners beh listeners (Event.update d))
        let cmp :=
          _check_milestones_and_phases cache1 st.engine.last_phase
            st.engine.last_milestones
        let eventDeliveries :=
          cmp.1.map fun e => (e, _notify_listeners beh listeners e)
        ({ engine :=
            { last_data := last_data1
            , flight_data_cache := some cache1
            , last_phase := cmp.2.1
            , last_milestones := cmp.2.2 }
          , consecutive_errors := 0 },
         { deliveries := updDelivery :: eventDeliveries
         , sleep_seconds := poll_interval })
      else
        (st, { deliveries := [], sleep_seconds := poll_interval })

/-- A run of consecutive loop iterations: final state plus the per-cycle
effects in order. -/
def _poll_run (poll_interval : ℚ)
    (beh : Listener → Event → Except String Unit)
    (listeners : List Listener) (st : PollState) :
    List CycleOutcome → PollState × List CycleEffect
  | [] => (st, [])
  | o :: os =>
      let r := _poll_step poll_interval beh listeners st o
      let rr := _poll_run poll_interval beh listeners r.1 os
      (rr.1, r.2 :: rr.2)

/-- A listener behaviour that always succeeds. -/
def behOk : Listener → Event → Except String Unit := fun _ _ => Except.ok ()

/-- A listener behaviour in which every call raises. -/
def behBoom : Listener → Event → Except String Unit :=
  fun _ _ => Except.error "boom"

/-- The notifier's loop visits every listener in order and records the
caught outcome of each call. -/
lemma notify_eq_map (beh : Listener → Event → Except String Unit)
    (ls : List Listener) (e : Event) :
    _notify_listeners beh ls e = ls.map fun l => (l, beh l e) := by
  induction ls with
  | nil => rfl
  | cons l rest ih => simp [_notify_listeners, ih]

/-- The notifier's trace projects back to the listener list itself: every
registered listener is invoked, in registration order. -/
lemma notify_fst (beh : Listener → Event → Except String Unit)
    (ls : List Listener) (e : Event) :
    (_notify_listeners beh ls e).map Prod.fst = ls := by
  induction ls with
  | nil => rfl
  | cons l rest ih => simp [_notify_listeners, ih]

/-- The successes picked out of an ordered list of endpoint outcomes. -/
def successesOf (results : List EndpointResult) : List RawSample :=
  results.filterMap fun r =>
    match r with
    | EndpointResult.ok (some d) => some d
    | _ => none

example :
    phaseRules 34000 450 0 false = "cruise" := by decide

example :
    phaseRules 0 0 0 true = "parked" := by decide

example :
    (_update_flight_data_cache (some { indicated_altitude := some 35000 })
      none { indicated_altitude := some 35000 }).altitude_ft = 35000 := by decide

/-- Sample snapshot used in scratch checks. -/
def fdAt (alt : ℚ) (wp : String) : FlightCache :=
  { altitude_ft := alt, altitude_agl_ft := alt, ground_altitude_ft := 0
  , speed_kt := 250, true_airspeed_kt := 250, indicated_airspeed_kt := 250
  , heading_deg := 0, vertical_speed_fpm := 0, latitude := 0, longitude := 0
  , wind_speed_kt := 0, wind_direction_deg := 0, on_ground := false
  , phase := "cruise", next_waypoint := wp, distance_to_dest_nm := 0
  , fuel_remaining_lbs := 0, ete_minutes := 0, raw_data := {} }

example : (checkMilestonesCore (fdAt 10000 "") []).1 = [MKey.FL 100] := by
  norm_num [checkMilestonesCore, fdAt, flightLevelOf, pyInt, Int.tdiv]

example : (checkMilestonesCore (fdAt 10500 "") [MKey.FL 100]).1 = [] := by
  norm_num [checkMilestonesCore, fdAt, flightLevelOf, pyInt, Int.tdiv]

example : (checkMilestonesCore (fdAt 9000 "") [MKey.FL 100]).2 = [] := by
  norm_num [checkMilestonesCore, fdAt, flightLevelOf, pyInt, Int.tdiv]

example :
    (_check_milestones (fdAt 10000 "DIXON") []).1 =
      ["Reached flight level 100", "Approaching waypoint DIXON"] := by
  norm_num [_check_milestones, checkMilestonesCore, fdAt, flightLevelOf, pyInt,
    Int.tdiv, announceText]
  all_goals decide

/-- C7: the fallback resolver returns the payload of the first endpoint in
order that succeeds with a non-empty payload (the head of the list of
non-empty successes); if no endpoint does, it returns the empty result
rather than raising; an individual endpoint's failure (or empty success)
never prevents the attempt on the next endpoint and is never escalated to
the caller — the function is total and simply recurses past it. -/
theorem C7_fallback_resolver_contract (results : List EndpointResult) :
    (_fetch_data_with_fallback results = (successesOf results).head?)
    ∧ (∀ rest, _fetch_data_with_fallback (EndpointResult.err :: rest) =
        _fetch_data_with_fallback rest)
    ∧ (∀ rest,
        _fetch_data_with_fallback (EndpointResult.ok none :: rest) =
          _fetch_data_with_fallback rest)
    ∧ (∀ d rest,
        _fetch_data_with_fallback (EndpointResult.ok (some d) :: rest) =
          some d)
    ∧ ((∀ r ∈ results, r = EndpointResult.err) →
        _fetch_data_with_fallback results = none) := by
  refine ⟨?_, fun rest => rfl, fun rest => rfl, fun d rest => rfl, ?_⟩
  · induction results with
    | nil => rfl
    | cons r rest ih =>
        cases r with
        | ok p =>
            cases p with
            | none => simpa [successesOf, _fetch_data_with_fallback] using ih
            | some d => simp [successesOf, _fetch_data_with_fallback]
        | err => simpa [successesOf, _fetch_data_with_fallback] using ih
  · intro hall
    induction results with
    | nil => rfl
    | cons r rest ih =>
        have hr := hall r (by simp)
        subst hr
        exact ih fun x hx => hall x (by simp [hx])

/-- C7 witness: on a concrete outcome list the resolver skips a failure
and an empty success and returns the third endpoint's payload; on an
all-failure list it returns the empty result. -/
theorem C7_fallback_resolver_contract_witness :
    _fetch_data_with_fallback
        [EndpointResult.err, EndpointResult.ok none,
         EndpointResult.ok (some {}), EndpointResult.err] = some {}
    ∧ _fetch_data_with_fallback
        [EndpointResult.err, EndpointResult.err, EndpointResult.err,
         EndpointResult.err] = none := by
  constructor
  · exact (C7_fallback_resolver_contract
      [EndpointResult.err, EndpointResult.ok none,
       EndpointResult.ok (some {}), EndpointResult.err]).1
  · exact (C7_fallback_resolver_contract
      [EndpointResult.err, EndpointResult.err, EndpointResult.err,
       EndpointResult.err]).2.2.2.2 (by decide)

/-- C8: even when some listeners raise, the notifier still invokes every
listener in registration order (the invocation trace is exactly the
listener list, each paired with its caught outcome), no exception
propagates out of the notification call (the notifier is a total function
into a plain trace), and the poll step's resulting engine state is
identical under any two listener behaviours — a listener failure cannot
change the snapshot, the phase or the milestone registry. -/
theorem C8_listener_isolation
    (beh : Listener → Event → Except String Unit)
    (ls : List Listener) (e : Event) :
    ((_notify_listeners beh ls e).map Prod.fst = ls)
    ∧ (_notify_listeners beh ls e = ls.map fun l => (l, beh l e))
    ∧ (∀ (interval : ℚ) (beh2 : Listener → Event → Except String Unit)
        (st : PollState) (o : CycleOutcome),
        (_poll_step interval beh ls st o).1 =
          (_poll_step interval beh2 ls st o).1) := by
  refine ⟨notify_fst beh ls e, notify_eq_map beh ls e, ?_⟩
  · intro interval beh2 st o
    cases o with
    | raised => rfl
    | fetched data =>
        cases data with
        | none => rfl
        | some d =>
            simp only [_poll_step]
            split_ifs <;> rfl

/-- C10: the listener-registration API is total and multiset-like:
removing an unregistered callback is a no-op (and, being a total
function, never raises), registering the same callback twice makes the
notifier invoke it twice per delivered event, and one removal removes
exactly one of the two registrations. -/
theorem C10_listener_registration_multiset
    (ls : List Listener) (c : Listener)
    (beh : Listener → Event → Except String Unit) (e : Event) :
    (c ∉ ls → remove_listener ls c = ls)
    ∧ ((add_listener (add_listener ls c) c).count c = ls.count c + 2)
    ∧ (((_notify_listeners beh (add_listener (add_listener ls c) c) e).map
          Prod.fst).count c = ls.count c + 2)
    ∧ ((remove_listener (add_listener (add_listener ls c) c) c).count c =
        ls.count c + 1) := by
  have hcount : (add_listener (add_listener ls c) c).count c = ls.count c + 2 := by
    simp [add_listener]
  refine ⟨?_, hcount, ?_, ?_⟩
  · intro hnmem
    simp [remove_listener, hnmem]
  · rw [notify_fst]
    exact hcount
  · have hmem : c ∈ add_listener (add_listener ls c) c := by
      simp [add_listener]
    rw [remove_listener, if_pos hmem, List.count_erase_self, hcount]
    omega

/-- C10 witness: with one listener `0` registered, removing the absent
listener `1` is a no-op; registering `1` twice yields two invocations per
event and a single removal leaves exactly one registration. -/
theorem C10_listener_registration_multiset_witness :
    (remove_listener [Listener.mk 0] (Listener.mk 1) = [Listener.mk 0])
    ∧ ((add_listener (add_listener [Listener.mk 0] (Listener.mk 1))
          (Listener.mk 1)).count (Listener.mk 1) = 2)
    ∧ (((_notify_listeners behBoom
          (add_listener (add_listener [Listener.mk 0] (Listener.mk 1))
            (Listener.mk 1)) (Event.update {})).map Prod.fst).count
          (Listener.mk 1) = 2)
    ∧ ((remove_listener
          (add_listener (add_listener [Listener.mk 0] (Listener.mk 1))
            (Listener.mk 1)) (Listener.mk 1)).count (Listener.mk 1) = 1) := by
  have h := C10_listener_registration_multiset [Listener.mk 0] (Listener.mk 1)
    behBoom (Event.update {})
  refine ⟨h.1 (by decide), ?_, ?_, ?_⟩
  · have := h.2.1
    simpa using this
  · have := h.2.2.1
    simpa using this
  · have := h.2.2.2
    simpa using this

/-- A raw sample carrying a negative source altitude. -/
def negAltSample : RawSample := { indicated_altitude := some (-100) }

/-- C9 counterexample: the claimed clamp does not exist.  The source
supplies `indicated_altitude = -100` and the published snapshot's
altitude is `-100 < 0`. -/
theorem C9_counterexample_negative_altitude :
    negAltSample.indicated_altitude = some (-100)
    ∧ ¬ (0 ≤ (_update_flight_data_cache (some negAltSample) none
          negAltSample).altitude_ft) := by
  constructor
  · rfl
  · simp only [_update_flight_data_cache, _safe_float, negAltSample,
      Option.getD_some, not_le]
    norm_num

/-- C9 amended: the snapshot's altitude is the source `indicated_altitude`
passed through unchanged (defaulting to 0 when absent), with no clamping:
it is negative exactly when the source value is. -/
theorem C9_altitude_unclamped (last : Option RawSample)
    (prev : Option FlightCache) (d : RawSample) :
    (d.indicated_altitude = none →
      (_update_flight_data_cache last prev d).altitude_ft = 0)
    ∧ (∀ x : ℚ, d.indicated_altitude = some x →
        (_update_flight_data_cache last prev d).altitude_ft = x) := by
  constructor
  · intro h
    simp [_update_flight_data_cache, _safe_float, h]
  · intro x h
    simp [_update_flight_data_cache, _safe_float, h]

/-- C9 amended witness: at the concrete negative sample the snapshot
altitude equals the (negative) source value. -/
theorem C9_altitude_unclamped_witness :
    negAltSample.indicated_altitude = some (-100)
    ∧ (_update_flight_data_cache (some negAltSample) none
        negAltSample).altitude_ft = -100 :=
  ⟨rfl, (C9_altitude_unclamped (some negAltSample) none negAltSample).2
    (-100) rfl⟩

/-- A raw sample in which the source explicitly reports `on_ground: false`
while airborne data is otherwise absent. -/
def falseGroundSample : RawSample :=
  { altitude_above_ground := some 10000, on_ground := some false }

/-- C2 counterexample: the source supplies `on_ground = False`, yet on the
first cycle (previous cache empty, so previous AGL defaults to `0 < 5`)
the snapshot's flag is `True` — the inference is applied even though the
key is present. -/
theorem C2_counterexample_present_false_overridden :
    falseGroundSample.on_ground = some false
    ∧ (_update_flight_data_cache (some falseGroundSample) none
        falseGroundSample).on_ground = true := by
  constructor
  · rfl
  · simp [_update_flight_data_cache, falseGroundSample, cacheAgl]

/-- C2 amended: the snapshot's flag is true iff the source supplied `true`
OR the previous cycle's AGL is below 5 ft — the inference applies whenever
the source value is absent or falsy (`x or y` evaluates `y` when `x` is
`False`), not only when the key is absent; when the key is absent the flag
is exactly the inference. -/
theorem C2_on_ground_truthy_or_inferred (last : Option RawSample)
    (prev : Option FlightCache) (d : RawSample) :
    ((_update_flight_data_cache last prev d).on_ground = true ↔
      (d.on_ground = some true ∨ cacheAgl prev < 5))
    ∧ (d.on_ground = none →
        (_update_flight_data_cache last prev d).on_ground =
          decide (cacheAgl prev < 5)) := by
  constructor
  · cases hog : d.on_ground with
    | none => simp [_update_flight_data_cache, hog]
    | some b => cases b <;> simp [_update_flight_data_cache, hog]
  · intro h
    simp [_update_flight_data_cache, h]

/-- C2 amended witness: on a sample without the key the flag is the
previous-AGL inference (true at an empty previous cache). -/
theorem C2_on_ground_truthy_or_inferred_witness :
    (({} : RawSample).on_ground = none)
    ∧ (_update_flight_data_cache none none {}).on_ground =
        decide (cacheAgl none < 5) :=
  ⟨rfl, (C2_on_ground_truthy_or_inferred none none {}).2 rfl⟩

/-- A previous-cycle cache describing a descending aircraft
(AGL 6000 ft, 300 kt, −1500 ft/min, airborne). -/
def descendingCache : FlightCache :=
  { altitude_ft := 6500, altitude_agl_ft := 6000, ground_altitude_ft := 500
  , speed_kt := 300, true_airspeed_kt := 300, indicated_airspeed_kt := 280
  , heading_deg := 90, vertical_speed_fpm := -1500, latitude := 0
  , longitude := 0, wind_speed_kt := 0, wind_direction_deg := 0
  , on_ground := false, phase := "descending", next_waypoint := ""
  , distance_to_dest_nm := 0, fuel_remaining_lbs := 0, ete_minutes := 0
  , raw_data := {} }

/-- A raw sample whose own normalized metrics are cruise
(AGL 34000 ft, 100 m/s ≈ 194 kt, level, airborne), with no
API-supplied phase. -/
def cruiseSample : RawSample :=
  { indicated_altitude := some 35000, altitude_above_ground := some 34000
  , ground_speed := some 100, vertical_speed := some 0
  , on_ground := some false }

/-- C1 counterexample: accepting `cruiseSample` after a descending cycle
stores the phase obtained from the PREVIOUS cache's metrics
(`descending`), not the phase the threshold rules give on the new
snapshot's own metrics (`cruise`). -/
theorem C1_counterexample_phase_uses_stale_metrics :
    cruiseSample.phase = none
    ∧ (_update_flight_data_cache (some cruiseSample) (some descendingCache)
        cruiseSample).phase ≠
      phaseRules
        (_update_flight_data_cache (some cruiseSample) (some descendingCache)
          cruiseSample).altitude_agl_ft
        (_update_flight_data_cache (some cruiseSample) (some descendingCache)
          cruiseSample).speed_kt
        (_update_flight_data_cache (some cruiseSample) (some descendingCache)
          cruiseSample).vertical_speed_fpm
        (_update_flight_data_cache (some cruiseSample) (some descendingCache)
          cruiseSample).on_ground := by
  refine ⟨rfl, ?_⟩
  have hold :
      (_update_flight_data_cache (some cruiseSample) (some descendingCache)
        cruiseSample).phase = "descending" := by
    simp only [_update_flight_data_cache, _detect_flight_phase, cruiseSample,
      Option.bind]
    norm_num [phaseRules, cacheAgl, cacheSpeed, cacheVs, cacheOnGround,
      descendingCache]
  have hnew :
      phaseRules
        (_update_flight_data_cache (some cruiseSample) (some descendingCache)
          cruiseSample).altitude_agl_ft
        (_update_flight_data_cache (some cruiseSample) (some descendingCache)
          cruiseSample).speed_kt
        (_update_flight_data_cache (some cruiseSample) (some descendingCache)
          cruiseSample).vertical_speed_fpm
        (_update_flight_data_cache (some cruiseSample) (some descendingCache)
          cruiseSample).on_ground = "cruise" := by
    simp only [_update_flight_data_cache, _safe_float, cruiseSample,
      cacheAgl, descendingCache, Option.getD_some]
    norm_num [phaseRules, msToKt, msToFpm]
  rw [hold, hnew]
  decide

/-- C1 amended: when the accepted sample carries no API phase, the phase
stored in the new snapshot is the threshold cascade evaluated on the
PREVIOUS cycle's cached metrics (with dict defaults for a fresh cache) —
a one-cycle lag, exactly as for the `on_ground` inference. -/
theorem C1_phase_from_previous_cache (prev : Option FlightCache)
    (d : RawSample) (h : d.phase = none) :
    (_update_flight_data_cache (some d) prev d).phase =
      phaseRules (cacheAgl prev) (cacheSpeed prev) (cacheVs prev)
        (cacheOnGround prev) := by
  simp [_update_flight_data_cache, _detect_flight_phase, h, Option.bind]

/-- C1 amended witness: the stored phase at the concrete counterexample
input is the cascade on the previous (descending) metrics. -/
theorem C1_phase_from_previous_cache_witness :
    cruiseSample.phase = none
    ∧ (_update_flight_data_cache (some cruiseSample) (some descendingCache)
        cruiseSample).phase =
      phaseRules (cacheAgl (some descendingCache))
        (cacheSpeed (some descendingCache)) (cacheVs (some descendingCache))
        (cacheOnGround (some descendingCache)) :=
  ⟨rfl, C1_phase_from_previous_cache (some descendingCache) cruiseSample rfl⟩

/-- A loop state reached from engine start by accepting `cruiseSample` and
then suffering one raised cycle: the stored raw sample is `cruiseSample`
and the consecutive-error counter is 1. -/
def stC5 : PollState :=
  (_poll_run 1 behOk [] initialPollState
    [CycleOutcome.fetched (some cruiseSample), CycleOutcome.raised]).1

/-- C5 counterexample: in the reachable state `stC5` (error counter 1,
last sample `cruiseSample`), a cycle whose fallback returns the same
non-empty sample does skip normalization and notification and sleeps the
normal interval, but leaves the counter at 1 — it is NOT reset to 0. -/
theorem C5_counterexample_counter_not_reset :
    stC5.engine.last_data = some cruiseSample
    ∧ stC5.consecutive_errors = 1
    ∧ (_poll_step 1 behOk [] stC5
        (CycleOutcome.fetched (some cruiseSample))).2.deliveries = []
    ∧ (_poll_step 1 behOk [] stC5
        (CycleOutcome.fetched (some cruiseSample))).1.consecutive_errors
        = 1 := by
  exact ⟨rfl, rfl, rfl, rfl⟩

/-- C5 amended: a cycle whose fallback returns a non-empty sample equal to
the previously stored raw sample skips normalization and listener
notification and sleeps the normal interval, leaving the whole loop state
— including the consecutive-error counter — unchanged (the counter is
reset only on the accept branch). -/
theorem C5_equal_sample_skips_everything (interval : ℚ)
    (beh : Listener → Event → Except String Unit) (ls : List Listener)
    (st : PollState) (d : RawSample) (h : st.engine.last_data = some d) :
    _poll_step interval beh ls st (CycleOutcome.fetched (some d)) =
      (st, { deliveries := [], sleep_seconds := interval }) := by
  simp [_poll_step, h]

/-- C5 amended witness: applying the theorem in the concrete state
`stC5`. -/
theorem C5_equal_sample_skips_everything_witness :
    stC5.engine.last_data = some cruiseSample
    ∧ _poll_step 1 behOk [] stC5 (CycleOutcome.fetched (some cruiseSample))
        = (stC5, { deliveries := [], sleep_seconds := 1 }) := by
  have hlast : stC5.engine.last_data = some cruiseSample := rfl
  exact ⟨hlast,
    C5_equal_sample_skips_everything 1 behOk [] stC5 cruiseSample hlast⟩

/-- Four failing endpoint attempts — one per configured endpoint. -/
def allEndpointsFail : List EndpointResult :=
  [EndpointResult.err, EndpointResult.err, EndpointResult.err,
   EndpointResult.err]

/-- C6 counterexample: five consecutive cycles in which every endpoint
fails do NOT drive the counter to 5 and do NOT trigger a 30 s backoff:
the fallback swallows the failures and returns the empty dict, each cycle
leaves the counter at 0 and sleeps the normal interval (here 1 s). -/
theorem C6_counterexample_fetch_failures_not_counted :
    _fetch_data_with_fallback allEndpointsFail = none
    ∧ ((_poll_run 1 behOk [] initialPollState
        (List.replicate 5
          (CycleOutcome.fetched
            (_fetch_data_with_fallback allEndpointsFail)))).1).consecutive_errors
        = 0
    ∧ ((_poll_run 1 behOk [] initialPollState
        (List.replicate 5
          (CycleOutcome.fetched
            (_fetch_data_with_fallback allEndpointsFail)))).2.map
          CycleEffect.sleep_seconds) = [1, 1, 1, 1, 1] := by
  exact ⟨rfl, rfl, rfl⟩

/-- C6 amended: a fetch-stage failure of every endpoint is swallowed by
the fallback resolver (empty dict) and the cycle leaves the counter and
engine untouched, sleeping the normal interval — so five such cycles never
reach the threshold.  The consecutive-error counter counts only cycles
whose body raises an exception: below the threshold such a cycle
increments the counter and sleeps 5 s, and on reaching the threshold 5 the
scheduler sleeps 30 s once and resets the counter to 0; in particular five
consecutive raised cycles from a fresh loop sleep 5,5,5,5,30 and end with
the counter at 0. -/
theorem C6_backoff_only_for_raised_cycles (interval : ℚ)
    (beh : Listener → Event → Except String Unit) (ls : List Listener) :
    (∀ rs : List EndpointResult, (∀ r ∈ rs, r = EndpointResult.err) →
      _fetch_data_with_fallback rs = none)
    ∧ (∀ st : PollState,
        _poll_step interval beh ls st (CycleOutcome.fetched none) =
          (st, { deliveries := [], sleep_seconds := interval }))
    ∧ (∀ st : PollState, st.consecutive_errors + 1 < max_errors →
        _poll_step interval beh ls st CycleOutcome.raised =
          ({ st with consecutive_errors := st.consecutive_errors + 1 },
           { deliveries := [], sleep_seconds := 5 }))
    ∧ (∀ st : PollState, st.consecutive_errors + 1 ≥ max_errors →
        _poll_step interval beh ls st CycleOutcome.raised =
          ({ st with consecutive_errors := 0 },
           { deliveries := [], sleep_seconds := 30 }))
    ∧ ((_poll_run interval beh ls initialPollState
          (List.replicate 5 CycleOutcome.raised)).1.consecutive_errors = 0
        ∧ (_poll_run interval beh ls initialPollState
            (List.replicate 5 CycleOutcome.raised)).2.map
            CycleEffect.sleep_seconds = [5, 5, 5, 5, 30]) := by
  refine ⟨?_, fun st => rfl, ?_, ?_, ?_⟩
  · intro rs hall
    induction rs with
    | nil => rfl
    | cons r rest ih =>
        have hr := hall r (by simp)
        subst hr
        exact ih fun x hx => hall x (by simp [hx])
  · intro st h
    simp only [_poll_step]
    rw [if_neg (by omega)]
  · intro st h
    simp only [_poll_step]
    rw [if_pos h]
  · exact ⟨rfl, rfl⟩

/-- C6 amended witness: concrete instances — an all-failure endpoint list
yields the empty dict; a raised cycle at counter 0 goes to counter 1 and
sleeps 5 s; a raised cycle at counter 4 resets to 0 and sleeps 30 s. -/
theorem C6_backoff_only_for_raised_cycles_witness :
    _fetch_data_with_fallback allEndpointsFail = none
    ∧ _poll_step 1 behOk [] initialPollState CycleOutcome.raised =
        ({ initialPollState with consecutive_errors := 1 },
         { deliveries := [], sleep_seconds := 5 })
    ∧ _poll_step 1 behOk []
        { initialPollState with consecutive_errors := 4 }
        CycleOutcome.raised =
        ({ initialPollState with consecutive_errors := 0 },
         { deliveries := [], sleep_seconds := 30 }) := by
  have h := C6_backoff_only_for_raised_cycles 1 behOk []
  refine ⟨h.1 allEndpointsFail (by decide), ?_, ?_⟩
  · exact h.2.2.1 initialPollState (by norm_num [initialPollState, max_errors])
  · exact h.2.2.2.1 { initialPollState with consecutive_errors := 4 }
      (by norm_num [max_errors])

lemma phaseRules_parked (agl gs vs : ℚ) (h : gs < 5) :
    phaseRules agl gs vs true = "parked" := by
  unfold phaseRules
  rw [if_pos ⟨rfl, h⟩]

lemma phaseRules_taxiing (agl gs vs : ℚ) (h : gs ≥ 5) :
    phaseRules agl gs vs true = "taxiing" := by
  unfold phaseRules
  rw [if_neg (show ¬(true = true ∧ gs < 5) by rintro ⟨_, hlt⟩; linarith),
    if_pos ⟨rfl, h⟩]

lemma phaseRules_takeoff (agl gs vs : ℚ) (h1 : agl < 50) (h2 : gs > 40) :
    phaseRules agl gs vs false = "takeoff" := by
  unfold phaseRules
  rw [if_neg (show ¬(false = true ∧ gs < 5) by rintro ⟨hb, _⟩; simp at hb),
    if_neg (show ¬(false = true ∧ gs ≥ 5) by rintro ⟨hb, _⟩; simp at hb),
    if_pos ⟨h1, h2⟩]

lemma phaseRules_climbing (agl gs vs : ℚ)
    (hno3 : ¬(agl < 50 ∧ gs > 40)) (h1 : agl < 1000) (h2 : vs > 300) :
    phaseRules agl gs vs false = "climbing" := by
  unfold phaseRules
  rw [if_neg (show ¬(false = true ∧ gs < 5) by rintro ⟨hb, _⟩; simp at hb),
    if_neg (show ¬(false = true ∧ gs ≥ 5) by rintro ⟨hb, _⟩; simp at hb),
    if_neg hno3, if_pos ⟨h1, h2⟩]

lemma phaseRules_cruise (agl gs vs : ℚ) (h1 : agl > 3000)
    (h2 : |vs| < 200) : phaseRules agl gs vs false = "cruise" := by
  unfold phaseRules
  rw [if_neg (show ¬(false = true ∧ gs < 5) by rintro ⟨hb, _⟩; simp at hb),
    if_neg (show ¬(false = true ∧ gs ≥ 5) by rintro ⟨hb, _⟩; simp at hb),
    if_neg (show ¬(agl < 50 ∧ gs > 40) by rintro ⟨ha, _⟩; linarith),
    if_neg (show ¬(agl < 1000 ∧ vs > 300) by rintro ⟨ha, _⟩; linarith),
    if_pos ⟨h1, h2⟩]

lemma phaseRules_descending (agl gs vs : ℚ)
    (hno3 : ¬(agl < 50 ∧ gs > 40)) (h : vs < -300) :
    phaseRules agl gs vs false = "descending" := by
  unfold phaseRules
  rw [if_neg (show ¬(false = true ∧ gs < 5) by rintro ⟨hb, _⟩; simp at hb),
    if_neg (show ¬(false = true ∧ gs ≥ 5) by rintro ⟨hb, _⟩; simp at hb),
    if_neg hno3,
    if_neg (show ¬(agl < 1000 ∧ vs > 300) by rintro ⟨_, hv⟩; linarith),
    if_neg (show ¬(agl > 3000 ∧ |vs| < 200) by
      rintro ⟨_, hv⟩; rw [abs_lt] at hv; linarith [hv.1]),
    if_pos h]

lemma phaseRules_approach (agl gs vs : ℚ)
    (hno3 : ¬(agl < 50 ∧ gs > 40)) (hge : vs ≥ -300) (h1 : agl < 300)
    (h2 : vs < 0) : phaseRules agl gs vs false = "approach" := by
  unfold phaseRules
  rw [if_neg (show ¬(false = true ∧ gs < 5) by rintro ⟨hb, _⟩; simp at hb),
    if_neg (show ¬(false = true ∧ gs ≥ 5) by rintro ⟨hb, _⟩; simp at hb),
    if_neg hno3,
    if_neg (show ¬(agl < 1000 ∧ vs > 300) by rintro ⟨_, hv⟩; linarith),
    if_neg (show ¬(agl > 3000 ∧ |vs| < 200) by rintro ⟨ha, _⟩; linarith),
    if_neg (not_lt.mpr hge), if_pos ⟨h1, h2⟩]

lemma phaseRules_unknown (agl gs vs : ℚ)
    (hno3 : ¬(agl < 50 ∧ gs > 40)) (hno4 : ¬(agl < 1000 ∧ vs > 300))
    (hno5 : ¬(agl > 3000 ∧ |vs| < 200)) (hno6 : ¬(vs < -300))
    (hno7 : ¬(agl < 300 ∧ vs < 0)) :
    phaseRules agl gs vs false = "unknown" := by
  unfold phaseRules
  rw [if_neg (show ¬(false = true ∧ gs < 5) by rintro ⟨hb, _⟩; simp at hb),
    if_neg (show ¬(false = true ∧ gs ≥ 5) by rintro ⟨hb, _⟩; simp at hb),
    if_neg hno3, if_neg hno4, if_neg hno5, if_neg hno6, if_neg hno7,
    if_neg (show ¬(false = true ∧ gs > 5) by rintro ⟨hb, _⟩; simp at hb)]

/-- C3: the phase classifier.  When the last raw sample carries a phase
string it is returned lower-cased, bypassing the rules.  Otherwise the
classifier equals the ordered threshold cascade on the record's metrics,
and first-match-wins holds rule by rule: each of the nine labels is
produced exactly under its rule's condition given that all earlier rules
failed (for a record with on-ground true rules 1–2 decide the label; for
AGL > 3000 ft and |VS| < 200 ft/min, rules 3–4 fail automatically, so any
airborne such record is `cruise`). -/
theorem C3_phase_classifier_rule_order (last : Option RawSample)
    (fd : FlightCache) :
    (∀ p, last.bind RawSample.phase = some p →
      _detect_flight_phase last (some fd) = p.toLower)
    ∧ (last.bind RawSample.phase = none →
        (_detect_flight_phase last (some fd) =
          phaseRules fd.altitude_agl_ft fd.speed_kt fd.vertical_speed_fpm
            fd.on_ground)
        ∧ (fd.on_ground = true → fd.speed_kt < 5 →
            _detect_flight_phase last (some fd) = "parked")
        ∧ (fd.on_ground = true → fd.speed_kt ≥ 5 →
            _detect_flight_phase last (some fd) = "taxiing")
        ∧ (fd.on_ground = false → fd.altitude_agl_ft < 50 →
            fd.speed_kt > 40 →
            _detect_flight_phase last (some fd) = "takeoff")
        ∧ (fd.on_ground = false →
            ¬(fd.altitude_agl_ft < 50 ∧ fd.speed_kt > 40) →
            fd.altitude_agl_ft < 1000 → fd.vertical_speed_fpm > 300 →
            _detect_flight_phase last (some fd) = "climbing")
        ∧ (fd.on_ground = false → fd.altitude_agl_ft > 3000 →
            |fd.vertical_speed_fpm| < 200 →
            _detect_flight_phase last (some fd) = "cruise")
        ∧ (fd.on_ground = false →
            ¬(fd.altitude_agl_ft < 50 ∧ fd.speed_kt > 40) →
            fd.vertical_speed_fpm < -300 →
            _detect_flight_phase last (some fd) = "descending")
        ∧ (fd.on_ground = false →
            ¬(fd.altitude_agl_ft < 50 ∧ fd.speed_kt > 40) →
            fd.vertical_speed_fpm ≥ -300 → fd.altitude_agl_ft < 300 →
            fd.vertical_speed_fpm < 0 →
            _detect_flight_phase last (some fd) = "approach")
        ∧ (fd.on_ground = false →
            ¬(fd.altitude_agl_ft < 50 ∧ fd.speed_kt > 40) →
            ¬(fd.altitude_agl_ft < 1000 ∧ fd.vertical_speed_fpm > 300) →
            ¬(fd.altitude_agl_ft > 3000 ∧ |fd.vertical_speed_fpm| < 200) →
            ¬(fd.vertical_speed_fpm < -300) →
            ¬(fd.altitude_agl_ft < 300 ∧ fd.vertical_speed_fpm < 0) →
            _detect_flight_phase last (some fd) = "unknown")) := by
  constructor
  · intro p hp
    simp [_detect_flight_phase, hp]
  · intro hnone
    have hbase : _detect_flight_phase last (some fd) =
        phaseRules fd.altitude_agl_ft fd.speed_kt fd.vertical_speed_fpm
          fd.on_ground := by
      simp [_detect_flight_phase, hnone, cacheAgl, cacheSpeed, cacheVs,
        cacheOnGround]
    refine ⟨hbase, ?_, ?_, ?_, ?_, ?_, ?_, ?_, ?_⟩
    · intro hog h
      rw [hbase, hog]
      exact phaseRules_parked _ _ _ h
    · intro hog h
      rw [hbase, hog]
      exact phaseRules_taxiing _ _ _ h
    · intro hog h1 h2
      rw [hbase, hog]
      exact phaseRules_takeoff _ _ _ h1 h2
    · intro hog hno3 h1 h2
      rw [hbase, hog]
      exact phaseRules_climbing _ _ _ hno3 h1 h2
    · intro hog h1 h2
      rw [hbase, hog]
      exact phaseRules_cruise _ _ _ h1 h2
    · intro hog hno3 h
      rw [hbase, hog]
      exact phaseRules_descending _ _ _ hno3 h
    · intro hog hno3 hge h1 h2
      rw [hbase, hog]
      exact phaseRules_approach _ _ _ hno3 hge h1 h2
    · intro hog hno3 hno4 hno5 hno6 hno7
      rw [hbase, hog]
      exact phaseRules_unknown _ _ _ hno3 hno4 hno5 hno6 hno7

/-- A metrics record matching the spec's cruise scenario:
34000 ft AGL, 231.6 m/s × 1.943844 ≈ 450 kt, level, airborne. -/
def fdCruiseScenario : FlightCache :=
  { fdAt 34000 "" with speed_kt := (2316 / 10) * msToKt }

/-- A parked metrics record: on the ground at 0 kt. -/
def fdParked : FlightCache :=
  { fdAt 0 "" with on_ground := true, speed_kt := 0 }

/-- C3 witness: concrete classifications — the API phase string wins
lower-cased; a grounded record at 0 kt is `parked`; the cruise-scenario
record is `cruise`. -/
theorem C3_phase_classifier_rule_order_witness :
    Option.bind (some ({ phase := some "CRUISE" } : RawSample))
        RawSample.phase = some "CRUISE"
    ∧ _detect_flight_phase (some { phase := some "CRUISE" })
        (some fdParked) = "CRUISE".toLower
    ∧ fdParked.on_ground = true ∧ fdParked.speed_kt < 5
    ∧ _detect_flight_phase none (some fdParked) = "parked"
    ∧ fdCruiseScenario.on_ground = false
    ∧ fdCruiseScenario.altitude_agl_ft > 3000
    ∧ |fdCruiseScenario.vertical_speed_fpm| < 200
    ∧ _detect_flight_phase none (some fdCruiseScenario) = "cruise" := by
  have hapi := (C3_phase_classifier_rule_order
    (some { phase := some "CRUISE" }) fdParked).1 "CRUISE" rfl
  have hparked := ((C3_phase_classifier_rule_order none fdParked).2
    rfl).2.1 rfl (by norm_num [fdParked, fdAt])
  have hcruise := ((C3_phase_classifier_rule_order none
    fdCruiseScenario).2 rfl).2.2.2.2.2.1 rfl
    (by norm_num [fdCruiseScenario, fdAt])
    (by norm_num [fdCruiseScenario, fdAt])
  exact ⟨rfl, hapi, rfl, by norm_num [fdParked, fdAt], hparked, rfl,
    by norm_num [fdCruiseScenario, fdAt],
    by norm_num [fdCruiseScenario, fdAt], hcruise⟩

/-- Truncation agrees with the mathematical floor on non-negative
rationals, so `int(altitude/1000)` is `floor` for the altitudes that can
build a flight-level key. -/
lemma pyInt_eq_floor (q : ℚ) (h : 0 ≤ q) : pyInt q = ⌊q⌋ := by
  unfold pyInt
  rw [Rat.floor_def]
  exact Int.tdiv_eq_ediv (by exact_mod_cast Rat.num_nonneg.mpr h)
    (by positivity)

/-- Membership of a flight-level key in the registry after the
clear-stale-levels filter. -/
lemma mem_FL_filter (L fl : ℤ) (l : List MKey) :
    MKey.FL L ∈ l.filter (fun k =>
      match k with
      | MKey.FL n => decide (n ≤ fl)
      | MKey.WP _ => true) ↔ (MKey.FL L ∈ l ∧ L ≤ fl) := by
  simp [List.mem_filter]

/-- Which flight-level keys a single pass fires: exactly the current
level's key, when the altitude is at least 10000 ft and the key is not in
the registry. -/
lemma core_fired_FL (fd : FlightCache) (reg : List MKey) (L : ℤ) :
    MKey.FL L ∈ (checkMilestonesCore fd reg).1 ↔
      (fd.altitude_ft ≥ 10000 ∧ L = flightLevelOf fd.altitude_ft ∧
        MKey.FL L ∉ reg) := by
  by_cases h10 : fd.altitude_ft ≥ 10000
  · by_cases hm : MKey.FL (flightLevelOf fd.altitude_ft) ∈ reg
    · simp only [checkMilestonesCore, if_pos h10, if_pos hm]
      split_ifs <;>
        · constructor
          · intro h
            simp at h
          · rintro ⟨_, rfl, hnm⟩
            exact absurd hm hnm
    · simp only [checkMilestonesCore, if_pos h10, if_neg hm]
      split_ifs <;>
        · simp [h10]
          rintro rfl
          exact hm
  · simp only [checkMilestonesCore, if_neg h10]
    split_ifs <;> simp [h10]

/-- Which flight-level keys survive a pass in the registry: those at or
below the current level that were already present or were just fired. -/
lemma core_reg_FL (fd : FlightCache) (reg : List MKey) (L : ℤ) :
    MKey.FL L ∈ (checkMilestonesCore fd reg).2 ↔
      (L ≤ flightLevelOf fd.altitude_ft ∧
        (MKey.FL L ∈ reg ∨
          (fd.altitude_ft ≥ 10000 ∧ L = flightLevelOf fd.altitude_ft))) := by
  by_cases h10 : fd.altitude_ft ≥ 10000
  · by_cases hm : MKey.FL (flightLevelOf fd.altitude_ft) ∈ reg
    · simp only [checkMilestonesCore, if_pos h10, if_pos hm]
      split_ifs <;>
        · simp [mem_FL_filter, h10]
          constructor
          · rintro ⟨hmem, hle⟩
            exact ⟨hle, Or.inl hmem⟩
          · rintro ⟨hle, hmem | rfl⟩
            · exact ⟨hmem, hle⟩
            · exact ⟨hm, hle⟩
    · simp only [checkMilestonesCore, if_pos h10, if_neg hm]
      split_ifs <;>
        · simp only [List.mem_append, List.mem_singleton, mem_FL_filter,
            List.filter_append]
          simp [List.mem_filter, h10]
          constructor
          · rintro (⟨hmem, hle⟩ | ⟨rfl, hle⟩)
            · exact ⟨hle, Or.inl hmem⟩
            · exact ⟨hle, Or.inr rfl⟩
          · rintro ⟨hle, hmem | rfl⟩
            · exact Or.inl ⟨hmem, hle⟩
            · exact Or.inr ⟨rfl, hle⟩
  · simp only [checkMilestonesCore, if_neg h10]
    split_ifs <;> simp [mem_FL_filter, h10] <;> exact and_comm

/-- Once a flight-level key is registered, passes that stay at or above
its level never fire it again and never drop it. -/
lemma run_no_refire (L : ℤ) (fds : List FlightCache) (reg : List MKey)
    (hmem : MKey.FL L ∈ reg)
    (hlev : ∀ g ∈ fds, L ≤ flightLevelOf g.altitude_ft) :
    MKey.FL L ∉ (milestoneRun fds reg).1 ∧
      MKey.FL L ∈ (milestoneRun fds reg).2 := by
  induction fds generalizing reg with
  | nil => simpa [milestoneRun] using hmem
  | cons g gs ih =>
      have hg : L ≤ flightLevelOf g.altitude_ft := hlev g (by simp)
      have hreg : MKey.FL L ∈ (checkMilestonesCore g reg).2 :=
        (core_reg_FL g reg L).mpr ⟨hg, Or.inl hmem⟩
      have hfired : MKey.FL L ∉ (checkMilestonesCore g reg).1 := by
        rw [core_fired_FL]
        rintro ⟨_, _, habs⟩
        exact habs hmem
      have hrest := ih (checkMilestonesCore g reg).2 hreg
        (fun x hx => hlev x (by simp [hx]))
      simp only [milestoneRun, List.mem_append]
      exact ⟨fun h => h.elim hfired hrest.1, hrest.2⟩

/-- C4: flight-level milestone lifecycle.  For altitudes ≥ 10000 ft the
level is `floor(altitude/1000)*10`; the current level's key fires iff it
is not registered, and it is registered afterwards; below 10000 ft no
flight-level key fires; a registered key at or below the current level
neither fires nor is dropped (so over any run of passes staying at or
above its level it fires zero times); a pass whose current level is below
a key's level removes that key; and after such a pass a climb back to the
level fires the key again. -/
theorem C4_flight_level_milestone_lifecycle (L : ℤ) (fd fd2 : FlightCache)
    (reg : List MKey) (fds : List FlightCache) :
    (fd.altitude_ft ≥ 10000 →
      flightLevelOf fd.altitude_ft = ⌊fd.altitude_ft / 1000⌋ * 10)
    ∧ (fd.altitude_ft ≥ 10000 → L = flightLevelOf fd.altitude_ft →
        ((MKey.FL L ∈ (checkMilestonesCore fd reg).1 ↔ MKey.FL L ∉ reg)
          ∧ MKey.FL L ∈ (checkMilestonesCore fd reg).2))
    ∧ (fd.altitude_ft < 10000 →
        ∀ n : ℤ, MKey.FL n ∉ (checkMilestonesCore fd reg).1)
    ∧ (MKey.FL L ∈ reg → L ≤ flightLevelOf fd.altitude_ft →
        (MKey.FL L ∈ (checkMilestonesCore fd reg).2
          ∧ MKey.FL L ∉ (checkMilestonesCore fd reg).1))
    ∧ (flightLevelOf fd.altitude_ft < L →
        MKey.FL L ∉ (checkMilestonesCore fd reg).2)
    ∧ (MKey.FL L ∈ reg →
        (∀ g ∈ fds, L ≤ flightLevelOf g.altitude_ft) →
        MKey.FL L ∉ (milestoneRun fds reg).1)
    ∧ (flightLevelOf fd.altitude_ft < L → fd2.altitude_ft ≥ 10000 →
        flightLevelOf fd2.altitude_ft = L →
        MKey.FL L ∈
          (checkMilestonesCore fd2 (checkMilestonesCore fd reg).2).1) := by
  refine ⟨?_, ?_, ?_, ?_, ?_, ?_, ?_⟩
  · intro h10
    unfold flightLevelOf
    rw [pyInt_eq_floor _ (div_nonneg (by linarith) (by norm_num))]
  · intro h10 hL
    constructor
    · rw [core_fired_FL]
      constructor
      · rintro ⟨_, _, hnm⟩
        exact hnm
      · intro hnm
        exact ⟨h10, hL, hnm⟩
    · rw [core_reg_FL]
      exact ⟨le_of_eq hL, Or.inr ⟨h10, hL⟩⟩
  · intro hlow n
    rw [core_fired_FL]
    rintro ⟨h10, _, _⟩
    linarith
  · intro hmem hle
    refine ⟨(core_reg_FL fd reg L).mpr ⟨hle, Or.inl hmem⟩, ?_⟩
    rw [core_fired_FL]
    rintro ⟨_, _, hnm⟩
    exact hnm hmem
  · intro hlt
    rw [core_reg_FL]
    rintro ⟨hle, _⟩
    linarith
  · intro hmem hlev
    exact (run_no_refire L fds reg hmem hlev).1
  · intro hlt h10 hL
    rw [core_fired_FL]
    refine ⟨h10, hL.symm, ?_⟩
    rw [core_reg_FL]
    rintro ⟨hle, _⟩
    linarith

/-- C4 witness: at 10000 ft from an empty registry `FL100` fires and is
registered; a second pass still at 10000 ft does not re-fire it; a descent
to 9000 ft removes it; and a climb back to 10000 ft fires it again. -/
theorem C4_flight_level_milestone_lifecycle_witness :
    (MKey.FL 100 ∈ (checkMilestonesCore (fdAt 10000 "") []).1
      ∧ MKey.FL 100 ∈ (checkMilestonesCore (fdAt 10000 "") []).2)
    ∧ MKey.FL 100 ∉
        (milestoneRun [fdAt 10000 "", fdAt 10500 ""] [MKey.FL 100]).1
    ∧ MKey.FL 100 ∉ (checkMilestonesCore (fdAt 9000 "") [MKey.FL 100]).2
    ∧ MKey.FL 100 ∈
        (checkMilestonesCore (fdAt 10000 "")
          (checkMilestonesCore (fdAt 9000 "") [MKey.FL 100]).2).1 := by
  have h1000 : flightLevelOf (10000 : ℚ) = 100 := by
    norm_num [flightLevelOf, pyInt, Int.tdiv]
  have h1050 : flightLevelOf (10500 : ℚ) = 100 := by
    norm_num [flightLevelOf, pyInt, Int.tdiv]
  have h900 : flightLevelOf (9000 : ℚ) = 90 := by
    norm_num [flightLevelOf, pyInt, Int.tdiv]
  have hfire := (C4_flight_level_milestone_lifecycle 100 (fdAt 10000 "")
    (fdAt 10000 "") [] []).2.1 (by norm_num [fdAt])
    (by simp [fdAt, h1000])
  have hrun := (C4_flight_level_milestone_lifecycle 100 (fdAt 10000 "")
    (fdAt 10000 "") [MKey.FL 100]
    [fdAt 10000 "", fdAt 10500 ""]).2.2.2.2.2.1 (by decide)
    (by
      intro g hg
      simp only [List.mem_cons, List.not_mem_nil, or_false] at hg
      rcases hg with rfl | rfl
      · simp [fdAt, h1000]
      · simp [fdAt, h1050])
  have hdrop := (C4_flight_level_milestone_lifecycle 100 (fdAt 9000 "")
    (fdAt 9000 "") [MKey.FL 100] []).2.2.2.2.1
    (by simp [fdAt, h900])
  have hrefire := (C4_flight_level_milestone_lifecycle 100 (fdAt 9000 "")
    (fdAt 10000 "") [MKey.FL 100] []).2.2.2.2.2.2
    (by simp [fdAt, h900]) (by norm_num [fdAt]) (by simp [fdAt, h1000])
  exact ⟨⟨hfire.1.mpr (by decide), hfire.2⟩, hrun, hdrop, hrefire⟩

end LNM
